import Mathlib

/-!
Verification of the user/premium-subscription data-access layer in
`src/src/types/user.ts` and the meal-plan generation client in the same file.

The Firestore-backed state is embedded as a `DB` record holding the
`users` collection (account id ↦ profile document) and the `premiumUsers`
collection (document id ↦ subscription record), both as association lists
in document order.  Each operation is a pure function threading the `DB`
state explicitly; the wall clock (`new Date().toISOString()`) is a `Nat`
parameter `now` supplied by the caller, and thrown JS exceptions are
`Except.error` values carrying the thrown message.
-/

/-- Profile preferences, from the `UserData` interface. -/
structure Preferences where
  dietaryRestrictions : List String
  servingSize : Nat
  theme : String
deriving Repr, DecidableEq

/-- A profile document in the `users` collection, from the `UserData`
interface.  `premiumDocId` is not declared in the interface but is written
by `addPremiumUser`, so the document can carry it. -/
structure UserData where
  username : String
  email : String
  isPremium : Bool
  premiumSince : Option Nat
  stripeSessionId : Option String
  stripeSubscriptionActive : Option Bool
  stripeCustomerId : Option String
  savedRecipes : List String
  mealPlans : List String
  preferences : Preferences
  lastVerified : Option Nat
  premiumDocId : Option String
  createdAt : Nat
  updatedAt : Nat
deriving Repr, DecidableEq

/-- A subscription record in the `premiumUsers` collection, as written by
`addPremiumUser` (`premiumUserData`). -/
structure PremiumUser where
  email : String
  userId : String
  active : Bool
  stripeSubscriptionActive : Bool
  createdAt : Nat
  updatedAt : Nat
deriving Repr, DecidableEq

/-- The Firestore state visible to this module: the two collections. -/
structure DB where
  users : List (String × UserData)
  premiumUsers : List (String × PremiumUser)
deriving Repr, DecidableEq

/-- `getDoc`: first binding of a key in an association list. -/
def lookupA {α : Type} : List (String × α) → String → Option α
  | [], _ => none
  | (k, v) :: rest, key => if k = key then some v else lookupA rest key

/-- `setDoc`: replace the binding of a key, or append a new one. -/
def setA {α : Type} : List (String × α) → String → α → List (String × α)
  | [], key, v => [(key, v)]
  | (k, w) :: rest, key, v =>
      if k = key then (key, v) :: rest else (k, w) :: setA rest key v

/-- `updateDoc`: merge fields into an existing document (no-op on ids that
are absent; every call site has checked existence first). -/
def modifyA {α : Type} : List (String × α) → String → (α → α) → List (String × α)
  | [], _, _ => []
  | (k, v) :: rest, key, f =>
      if k = key then (k, f v) :: modifyA rest key f
      else (k, v) :: modifyA rest key f

/-- The value returned by `verifyPremiumStatus`. -/
structure VerifyResult where
  isPremium : Bool
  lastVerified : Nat
  error : Option String
deriving Repr, DecidableEq

/-- The embedding of `String.prototype.toLowerCase`, written as a map over
the character list so that it reduces on concrete strings. -/
def strToLower (s : String) : String := String.mk (s.data.map Char.toLower)

/-- The `premiumUsers` query filter of `verifyPremiumStatus`:
`email == user.email.toLowerCase() AND active == true AND
stripeSubscriptionActive == true`. -/
def premiumMatch (profileEmail : String) (p : PremiumUser) : Bool :=
  p.email == strToLower profileEmail && p.active && p.stripeSubscriptionActive

/-- The `try` block of `verifyPremiumStatus` (lines 200-237): read the
profile, throw if absent, query the subscription records, write the result
back into the profile. -/
def verifyPremiumStatusImpl (db : DB) (userId : String) (now : Nat) :
    Except String (VerifyResult × DB) :=
  match lookupA db.users userId with
  | none => Except.error "User not found"
  | some user =>
    let isPremium := db.premiumUsers.any (fun p => premiumMatch user.email p.2)
    let db2 : DB :=
      { db with users := modifyA db.users userId (fun u =>
          { u with isPremium := isPremium, lastVerified := some now,
                   stripeSubscriptionActive := some isPremium, updatedAt := now }) }
    Except.ok ({ isPremium := isPremium, lastVerified := now, error := none }, db2)

/-- `verifyPremiumStatus` (lines 199-246): the `try` block with its
`catch`, which degrades every failure to `isPremium = false` plus an error
string and leaves the store untouched. -/
def verifyPremiumStatus (db : DB) (userId : String) (now : Nat) :
    VerifyResult × DB :=
  match verifyPremiumStatusImpl db userId now with
  | Except.ok r => r
  | Except.error e =>
      ({ isPremium := false, lastVerified := now, error := some e }, db)

/-- `getUserData` (lines 92-120): read the profile; when `forceRefresh` is
set, run `verifyPremiumStatus` and, if the fresh value differs from the
stored one, write it back and return the merged record. -/
def getUserData (db : DB) (userId : String) (forceRefresh : Bool) (now : Nat) :
    Except String UserData × DB :=
  match lookupA db.users userId with
  | none => (Except.error "User document not found", db)
  | some userData =>
    if forceRefresh then
      let vr := verifyPremiumStatus db userId now
      if vr.1.isPremium != userData.isPremium then
        let db3 : DB :=
          { vr.2 with users := modifyA vr.2.users userId (fun u =>
              { u with isPremium := vr.1.isPremium, lastVerified := some now,
                       updatedAt := now }) }
        (Except.ok { userData with isPremium := vr.1.isPremium }, db3)
      else (Except.ok userData, vr.2)
    else (Except.ok userData, db)

/-- Lines 142-169 of `addPremiumUser`: find a subscription record with the
normalized email; mark the first match active, or create a fresh record
under `freshId`.  Returns the linked record id and the new store. -/
def grantSubscriptionWrite (db : DB) (normalizedEmail userId freshId : String)
    (now : Nat) : String × DB :=
  match db.premiumUsers.filter (fun p => p.2.email == normalizedEmail) with
  | [] =>
    let premiumUserData : PremiumUser :=
      { email := normalizedEmail, userId := userId, active := true,
        stripeSubscriptionActive := true, createdAt := now, updatedAt := now }
    (freshId, { db with premiumUsers := setA db.premiumUsers freshId premiumUserData })
  | (docId, _) :: _ =>
    (docId,
     { db with premiumUsers := modifyA db.premiumUsers docId (fun p =>
         { p with active := true, updatedAt := now,
                  stripeSubscriptionActive := true, userId := userId }) })

/-- Lines 171-179 of `addPremiumUser`: the unconditional profile update
after the subscription-record write. -/
def grantWrite (normalizedEmail premiumDocId : String) (now : Nat)
    (u : UserData) : UserData :=
  { u with isPremium := true, premiumSince := some now, email := normalizedEmail,
           premiumDocId := some premiumDocId, stripeSubscriptionActive := some true,
           updatedAt := now, lastVerified := some now }

/-- `addPremiumUser` (lines 122-197).  `currentUser` is
`auth.currentUser?.uid`; `freshId` is the generated id of
`doc(premiumUsersRef)` for the no-existing-record branch.  Returns the
`true` of the source on success and the thrown message otherwise; the
second component is the store after the writes that did happen. -/
def addPremiumUser (db : DB) (currentUser : Option String) (email : String)
    (freshId : String) (now : Nat) : Except String Bool × DB :=
  if email = "" then (Except.error "Email is required", db)
  else
    let normalizedEmail := strToLower email
    match currentUser with
    | none => (Except.error "No authenticated user found", db)
    | some userId =>
      match lookupA db.users userId with
      | none => (Except.error "User document not found", db)
      | some _ =>
        let step := grantSubscriptionWrite db normalizedEmail userId freshId now
        let write := grantWrite normalizedEmail step.1 now
        let db2 : DB := { step.2 with users := modifyA step.2.users userId write }
        let vr := verifyPremiumStatus db2 userId now
        if vr.1.isPremium then (Except.ok true, vr.2)
        else (Except.error "Premium status verification failed after update", vr.2)

/-- `getAuthErrorMessage` (lines 347-366). -/
def getAuthErrorMessage (errorCode : String) : String :=
  if errorCode = "auth/invalid-credential" ∨ errorCode = "auth/wrong-password" ∨
     errorCode = "auth/user-not-found" then
    "Invalid email or password. Please try again."
  else if errorCode = "auth/email-already-in-use" then
    "This email is already registered. Please sign in instead."
  else if errorCode = "auth/weak-password" then
    "Password should be at least 6 characters long."
  else if errorCode = "auth/invalid-email" then
    "Please enter a valid email address."
  else if errorCode = "auth/too-many-requests" then
    "Too many failed attempts. Please try again later."
  else if errorCode = "auth/network-request-failed" then
    "Network error. Please check your connection and try again."
  else
    "An error occurred. Please try again."

/-- `createUser` (lines 248-285).  `authResult` is the outcome of
`createUserWithEmailAndPassword`: the fresh uid, or the provider error
code carried on the thrown error. -/
def createUser (db : DB) (authResult : Except String String) (email : String)
    (_password : String) (username : String) (now : Nat) :
    Except String String × DB :=
  match authResult with
  | Except.error code =>
    if code = "auth/email-already-in-use" then
      (Except.error "This email is already registered. Please sign in instead.", db)
    else
      (Except.error (getAuthErrorMessage code), db)
  | Except.ok uid =>
    let vr := verifyPremiumStatus db uid now
    let userData : UserData :=
      { username := username, email := strToLower email,
        isPremium := vr.1.isPremium, premiumSince := none,
        stripeSessionId := none, stripeSubscriptionActive := none,
        stripeCustomerId := none, savedRecipes := [], mealPlans := [],
        preferences := { dietaryRestrictions := [], servingSize := 2,
                         theme := "light" },
        lastVerified := none, premiumDocId := none,
        createdAt := now, updatedAt := now }
    (Except.ok uid, { vr.2 with users := setA vr.2.users uid userData })

/-- JSON values, for the parsed body of a generation-endpoint completion. -/
inductive Json where
  | null : Json
  | bool : Bool → Json
  | num : Int → Json
  | str : String → Json
  | arr : List Json → Json
  | obj : List (String × Json) → Json
deriving Repr

/-- Property access `response.key` on a parsed value: `none` models the JS
`undefined` (missing key, or the value is not an object). -/
def Json.lookupKey : Json → String → Option Json
  | Json.obj fields, key => lookupA fields key
  | _, _ => none

/-- `Array.isArray`. -/
def Json.isArray : Json → Bool
  | Json.arr _ => true
  | _ => false

/-- The element list of an array value. -/
def Json.getArr : Json → List Json
  | Json.arr xs => xs
  | _ => []

/-- JS falsiness of a present value (`!response.weeklyPlan` with the
missing-key case handled by `Option`). -/
def jsFalsy : Json → Bool
  | Json.null => true
  | Json.bool b => !b
  | Json.num n => n == 0
  | Json.str s => s == ""
  | _ => false

/-- The `try` block of `generateMealPlan` (lines 453-489): `completion` is
the parse outcome of the completion content (`Except.error` for a raw
`JSON.parse` failure), then the shape check on `weeklyPlan`. -/
def generateMealPlanImpl (completion : Except String Json) :
    Except String (List Json) :=
  match completion with
  | Except.error e => Except.error e
  | Except.ok response =>
    match Json.lookupKey response "weeklyPlan" with
    | none => Except.error "Invalid meal plan format received"
    | some v =>
      if jsFalsy v || !v.isArray then
        Except.error "Invalid meal plan format received"
      else Except.ok v.getArr

/-- `generateMealPlan` (lines 446-498): the `catch` replaces every
internal error with the one generic user-facing message. -/
def generateMealPlan (completion : Except String Json) :
    Except String (List Json) :=
  match generateMealPlanImpl completion with
  | Except.ok plan => Except.ok plan
  | Except.error _ =>
      Except.error "Failed to generate meal plan. Please try again."

/-! ### Association-list lemmas -/

theorem lookupA_modifyA {α : Type} (l : List (String × α)) (k : String)
    (f : α → α) : lookupA (modifyA l k f) k = (lookupA l k).map f := by
  induction l with
  | nil => rfl
  | cons kv rest ih =>
    obtain ⟨k1, v⟩ := kv
    by_cases h : k1 = k
    · subst h
      simp [modifyA, lookupA]
    · simp [modifyA, lookupA, h, ih]

theorem lookupA_setA {α : Type} (l : List (String × α)) (k : String)
    (v : α) : lookupA (setA l k v) k = some v := by
  induction l with
  | nil => simp [setA, lookupA]
  | cons kv rest ih =>
    obtain ⟨k1, w⟩ := kv
    by_cases h : k1 = k
    · subst h
      simp [setA, lookupA]
    · simp [setA, lookupA, h, ih]

/-! ### Unfolding lemmas for `verifyPremiumStatus` -/

/-- The subscription query result for a profile email against a store. -/
def premiumQuery (db : DB) (profileEmail : String) : Bool :=
  db.premiumUsers.any (fun p => premiumMatch profileEmail p.2)

/-- The profile write performed by a successful verification. -/
def verifyWrite (c : Bool) (now : Nat) (u : UserData) : UserData :=
  { u with isPremium := c, lastVerified := some now,
           stripeSubscriptionActive := some c, updatedAt := now }

theorem verifyPremiumStatus_none (db : DB) (userId : String) (now : Nat)
    (h : lookupA db.users userId = none) :
    verifyPremiumStatus db userId now =
      ({ isPremium := false, lastVerified := now, error := some "User not found" },
       db) := by
  simp [verifyPremiumStatus, verifyPremiumStatusImpl, h]

theorem verifyPremiumStatus_some (db : DB) (userId : String) (now : Nat)
    (user : UserData) (h : lookupA db.users userId = some user) :
    verifyPremiumStatus db userId now =
      ({ isPremium := premiumQuery db user.email, lastVerified := now,
         error := none },
       { db with users :=
           modifyA db.users userId (verifyWrite (premiumQuery db user.email) now) }) := by
  simp only [verifyPremiumStatus, verifyPremiumStatusImpl, h]
  rfl

/-- A verification right after a verification computes the same value: the
first write changes neither the profile email nor the subscription
records. -/
theorem verifyPremiumStatus_stable (db : DB) (userId : String) (n1 n2 : Nat) :
    (verifyPremiumStatus ((verifyPremiumStatus db userId n1).2) userId n2).1.isPremium =
      (verifyPremiumStatus db userId n1).1.isPremium := by
  cases hm : lookupA db.users userId with
  | none =>
    rw [verifyPremiumStatus_none db userId n1 hm]
    rw [verifyPremiumStatus_none db userId n2 hm]
  | some u =>
    rw [verifyPremiumStatus_some db userId n1 u hm]
    have hl : lookupA
        (modifyA db.users userId (verifyWrite (premiumQuery db u.email) n1))
        userId = some (verifyWrite (premiumQuery db u.email) n1 u) := by
      rw [lookupA_modifyA, hm]
      rfl
    rw [verifyPremiumStatus_some _ userId n2 _ hl]
    rfl

/-- The subscription-record write never touches the `users` collection. -/
theorem grantSubscriptionWrite_users (db : DB)
    (normalizedEmail userId freshId : String) (now : Nat) :
    (grantSubscriptionWrite db normalizedEmail userId freshId now).2.users = db.users := by
  unfold grantSubscriptionWrite
  split <;> rfl

/-- Anatomy of a successful `addPremiumUser` run: the returned store is
the one produced by the final verification over some intermediate store in
which that verification succeeded and whose profile carries the normalized
email. -/
theorem addPremiumUser_ok (db db2 : DB) (userId email freshId : String)
    (now : Nat)
    (h : addPremiumUser db (some userId) email freshId now = (Except.ok true, db2)) :
    ∃ dbMid u2, db2 = (verifyPremiumStatus dbMid userId now).2 ∧
      (verifyPremiumStatus dbMid userId now).1.isPremium = true ∧
      lookupA dbMid.users userId = some u2 ∧ u2.email = strToLower email := by
  simp only [addPremiumUser] at h
  split at h
  · simp at h
  · split at h
    · simp at h
    · split at h
      · rename_i u0 hm hc
        simp only [Prod.mk.injEq, true_and] at h
        subst h
        refine ⟨_, grantWrite (strToLower email)
          (grantSubscriptionWrite db (strToLower email) userId freshId now).1 now u0,
          rfl, hc, ?_, rfl⟩
        rw [lookupA_modifyA, grantSubscriptionWrite_users, hm]
        rfl
      · simp at h


/-! ### Concrete stores used by the witnesses and counterexamples -/

/-- The default preferences written by `createUser`. -/
def defaultPreferences : Preferences :=
  { dietaryRestrictions := [], servingSize := 2, theme := "light" }

/-- A profile whose email differs from the stored record only in case. -/
def userEx : UserData :=
  { username := "alice", email := "USER@EXAMPLE.COM", isPremium := false,
    premiumSince := none, stripeSessionId := none,
    stripeSubscriptionActive := none, stripeCustomerId := none,
    savedRecipes := [], mealPlans := [], preferences := defaultPreferences,
    lastVerified := none, premiumDocId := none, createdAt := 0, updatedAt := 0 }

/-- An active subscription record stored with the lower-cased email. -/
def precEx : PremiumUser :=
  { email := "user@example.com", userId := "u1", active := true,
    stripeSubscriptionActive := true, createdAt := 0, updatedAt := 0 }

def dbEx : DB := { users := [("u1", userEx)], premiumUsers := [("p1", precEx)] }

/-! ### Claim theorems -/

/-- C1: for an account whose Profile exists, `verifyPremiumStatus` reports
premium exactly when at least one record of the `premiumUsers` collection
has `email` equal to the lower-cased Profile email, `active = true` and
`stripeSubscriptionActive = true`. -/
theorem verify_isPremium_iff (db : DB) (userId : String) (now : Nat)
    (user : UserData) (h : lookupA db.users userId = some user) :
    (verifyPremiumStatus db userId now).1.isPremium = true ↔
      ∃ p ∈ db.premiumUsers, p.2.email = strToLower user.email ∧
        p.2.active = true ∧ p.2.stripeSubscriptionActive = true := by
  rw [verifyPremiumStatus_some db userId now user h]
  simp [premiumQuery, premiumMatch, List.any_eq_true, Bool.and_eq_true,
    beq_iff_eq, and_assoc]

/-- Witness for C1: a record stored with lower-cased email matches a
profile whose email differs only in case. -/
theorem verify_isPremium_iff_witness :
    (verifyPremiumStatus dbEx "u1" 5).1.isPremium = true ↔
      ∃ p ∈ dbEx.premiumUsers, p.2.email = strToLower userEx.email ∧
        p.2.active = true ∧ p.2.stripeSubscriptionActive = true :=
  verify_isPremium_iff dbEx "u1" 5 userEx rfl

/-- C4: any failure of the verification try-block is caught internally:
the caller gets `isPremium = false` with the failure message attached as
an error string, the store is untouched, and nothing is thrown (the
function is total into a plain result). -/
theorem verify_catches_failure (db : DB) (userId : String) (now : Nat)
    (e : String) (h : verifyPremiumStatusImpl db userId now = Except.error e) :
    verifyPremiumStatus db userId now =
      ({ isPremium := false, lastVerified := now, error := some e }, db) := by
  simp [verifyPremiumStatus, h]

/-- Witness for C4: a missing Profile degrades to `isPremium = false` with
the error string attached. -/
theorem verify_catches_failure_witness :
    verifyPremiumStatus dbEx "missing" 3 =
      ({ isPremium := false, lastVerified := 3, error := some "User not found" },
       dbEx) :=
  verify_catches_failure dbEx "missing" 3 "User not found" rfl

/-- C5: verification is idempotent: running it twice with the backing
subscription records unchanged yields the same `isPremium` result, and
the Profile's stored `isPremium` is the same after each run. -/
theorem verify_idempotent (db : DB) (userId : String) (n1 n2 : Nat) :
    ((verifyPremiumStatus ((verifyPremiumStatus db userId n1).2) userId n2).1.isPremium =
        (verifyPremiumStatus db userId n1).1.isPremium) ∧
      ((lookupA ((verifyPremiumStatus ((verifyPremiumStatus db userId n1).2) userId n2).2).users
            userId).map (fun u => u.isPremium) =
        (lookupA ((verifyPremiumStatus db userId n1).2).users userId).map
          (fun u => u.isPremium)) := by
  refine ⟨verifyPremiumStatus_stable db userId n1 n2, ?_⟩
  cases hm : lookupA db.users userId with
  | none =>
    rw [verifyPremiumStatus_none db userId n1 hm,
      verifyPremiumStatus_none db userId n2 hm]
  | some u =>
    rw [verifyPremiumStatus_some db userId n1 u hm]
    have hl : lookupA
        (modifyA db.users userId (verifyWrite (premiumQuery db u.email) n1))
        userId = some (verifyWrite (premiumQuery db u.email) n1 u) := by
      rw [lookupA_modifyA, hm]
      rfl
    rw [verifyPremiumStatus_some _ userId n2 _ hl]
    simp [lookupA_modifyA, hl]
    rfl

/-- C10: on the non-fallback path, verification writes the Profile's
`stripeSubscriptionActive` equal to the computed `isPremium`, alongside
`isPremium`, `lastVerified` and `updatedAt`. -/
theorem verify_writes_stripe (db : DB) (userId : String) (now : Nat)
    (user : UserData) (h : lookupA db.users userId = some user) :
    lookupA (verifyPremiumStatus db userId now).2.users userId =
      some { user with
               isPremium := (verifyPremiumStatus db userId now).1.isPremium,
               stripeSubscriptionActive :=
                 some (verifyPremiumStatus db userId now).1.isPremium,
               lastVerified := some now, updatedAt := now } := by
  rw [verifyPremiumStatus_some db userId now user h]
  simp [lookupA_modifyA, h, verifyWrite]

/-- Witness for C10 at a concrete store. -/
theorem verify_writes_stripe_witness :
    lookupA (verifyPremiumStatus dbEx "u1" 5).2.users "u1" =
      some { userEx with
               isPremium := (verifyPremiumStatus dbEx "u1" 5).1.isPremium,
               stripeSubscriptionActive :=
                 some (verifyPremiumStatus dbEx "u1" 5).1.isPremium,
               lastVerified := some 5, updatedAt := 5 } :=
  verify_writes_stripe dbEx "u1" 5 userEx rfl

/-- A profile that already agrees with the verification result
(`isPremium = false`, no matching record) but carries a stale
`stripeSubscriptionActive`. -/
def userC2 : UserData := { userEx with stripeSubscriptionActive := some true }

def dbC2 : DB := { users := [("u1", userC2)], premiumUsers := [] }

/-- C2 counterexample: at `dbC2` the fresh verification result equals the
stored `isPremium`, yet `getUserData` with `forceRefresh = true` still
mutates the stored Profile (the verification write-back is unconditional),
so "mutates iff the fresh value differs from the stored one" fails. -/
theorem getUserData_refresh_mutates_when_equal :
    (verifyPremiumStatus dbC2 "u1" 1).1.isPremium = userC2.isPremium ∧
    lookupA (getUserData dbC2 "u1" true 1).2.users "u1" ≠ some userC2 := by
  decide

/-- C2 (amended): `getUserData` with `forceRefresh = false` never mutates
the store; with `forceRefresh = true` and an existing Profile, the stored
Profile always ends up as the full verification write (fresh `isPremium`,
`stripeSubscriptionActive`, `lastVerified`, `updatedAt`) whether or not
the fresh value differs from the stored one — the difference only decides
whether `getUserData` performs its own additional merge write. -/
theorem getUserData_mutation (db : DB) (userId : String) (now : Nat)
    (user : UserData) (h : lookupA db.users userId = some user) :
    (getUserData db userId false now).2 = db ∧
    lookupA (getUserData db userId true now).2.users userId =
      some (verifyWrite (premiumQuery db user.email) now user) := by
  constructor
  · simp [getUserData, h]
  · simp only [getUserData, h]
    rw [verifyPremiumStatus_some db userId now user h]
    by_cases hc : premiumQuery db user.email = user.isPremium
    · simp [hc, lookupA_modifyA, h, verifyWrite]
    · simp [hc, lookupA_modifyA, h, verifyWrite]

/-- Witness for the amended C2. -/
theorem getUserData_mutation_witness :
    (getUserData dbC2 "u1" false 1).2 = dbC2 ∧
    lookupA (getUserData dbC2 "u1" true 1).2.users "u1" =
      some (verifyWrite (premiumQuery dbC2 userC2.email) 1 userC2) :=
  getUserData_mutation dbC2 "u1" 1 userC2 rfl

/-- A profile whose stored email differs from the email being granted. -/
def userC3 : UserData := { userEx with email := "old@else.org" }

def dbC3 : DB := { users := [("u1", userC3)], premiumUsers := [] }

/-- C3: when `addPremiumUser` completes successfully (subscription-record
write, Profile write and post-check all done), an immediately following
verification reports `isPremium = true`. -/
theorem grant_then_verify (db db2 : DB) (userId email freshId : String)
    (now now2 : Nat)
    (h : addPremiumUser db (some userId) email freshId now = (Except.ok true, db2)) :
    (verifyPremiumStatus db2 userId now2).1.isPremium = true := by
  obtain ⟨dbMid, u2, hdb2, htrue, -, -⟩ :=
    addPremiumUser_ok db db2 userId email freshId now h
  subst hdb2
  rw [verifyPremiumStatus_stable dbMid userId now now2]
  exact htrue

/-- Witness for C3: a concrete successful grant followed by verify. -/
theorem grant_then_verify_witness :
    (verifyPremiumStatus (addPremiumUser dbC3 (some "u1") "New@X.Com" "f1" 7).2
        "u1" 9).1.isPremium = true :=
  grant_then_verify dbC3 (addPremiumUser dbC3 (some "u1") "New@X.Com" "f1" 7).2
    "u1" "New@X.Com" "f1" 7 9 rfl

/-- C9: a successful `addPremiumUser` overwrites the Profile's email with
the lower-cased input email, whatever email was stored before. -/
theorem grant_overwrites_email (db db2 : DB) (userId email freshId : String)
    (now : Nat)
    (h : addPremiumUser db (some userId) email freshId now = (Except.ok true, db2)) :
    (lookupA db2.users userId).map (fun u => u.email) = some (strToLower email) := by
  obtain ⟨dbMid, u2, hdb2, htrue, hlook, hemail⟩ :=
    addPremiumUser_ok db db2 userId email freshId now h
  subst hdb2
  rw [verifyPremiumStatus_some dbMid userId now u2 hlook]
  simp [lookupA_modifyA, hlook, verifyWrite, hemail]

/-- Witness for C9: the stored email `old@else.org` is replaced by the
lower-casing of the granted email `New@X.Com`. -/
theorem grant_overwrites_email_witness :
    (lookupA (addPremiumUser dbC3 (some "u1") "New@X.Com" "f2" 8).2.users
        "u1").map (fun u => u.email) = some "new@x.com" :=
  grant_overwrites_email dbC3 (addPremiumUser dbC3 (some "u1") "New@X.Com" "f2" 8).2
    "u1" "New@X.Com" "f2" 8 rfl

/-- C6: `createUser` on a provider duplicate-email error fails with the
distinct duplicate-email message, which differs from the generic fallback
produced for unmapped provider error codes. -/
theorem createUser_duplicate_email (db : DB) (email pw username : String)
    (now : Nat) :
    (createUser db (Except.error "auth/email-already-in-use") email pw username now).1 =
      Except.error "This email is already registered. Please sign in instead." ∧
    getAuthErrorMessage "auth/internal-error" = "An error occurred. Please try again." ∧
    ("This email is already registered. Please sign in instead." : String) ≠
      "An error occurred. Please try again." := by
  refine ⟨rfl, rfl, ?_⟩
  decide

/-- C7: a generation response whose `weeklyPlan` key is missing or is not
a list makes `generateMealPlan` fail with the generic meal-plan message,
not the raw shape error. -/
theorem generateMealPlan_bad_shape (j : Json)
    (h : ∀ v, Json.lookupKey j "weeklyPlan" = some v → v.isArray = false) :
    generateMealPlan (Except.ok j) =
      Except.error "Failed to generate meal plan. Please try again." := by
  cases hl : Json.lookupKey j "weeklyPlan" with
  | none => simp [generateMealPlan, generateMealPlanImpl, hl]
  | some v =>
    have hv := h v hl
    simp [generateMealPlan, generateMealPlanImpl, hl, hv]

/-- Witness for C7: a `weeklyPlan` key holding a string, not a list. -/
theorem generateMealPlan_bad_shape_witness :
    generateMealPlan (Except.ok (Json.obj [("weeklyPlan", Json.str "oops")])) =
      Except.error "Failed to generate meal plan. Please try again." :=
  generateMealPlan_bad_shape (Json.obj [("weeklyPlan", Json.str "oops")]) (by
    intro v hv
    simp [Json.lookupKey, lookupA] at hv
    subst hv
    rfl)

/-- A store with no profiles but an active subscription record for the
very email about to be registered. -/
def dbC8 : DB := { users := [], premiumUsers := [("p1", precEx)] }

/-- C8: a successful `createUser` for a fresh account id (no pre-existing
Profile document) writes a Profile with `isPremium = false` regardless of
the subscription records: the verification step runs before the Profile
write and takes its profile-not-found fallback. -/
theorem createUser_fresh_not_premium (db : DB) (uid email pw username : String)
    (now : Nat) (h : lookupA db.users uid = none) :
    (lookupA (createUser db (Except.ok uid) email pw username now).2.users
        uid).map (fun u => u.isPremium) = some false := by
  have hv := verifyPremiumStatus_none db uid now h
  simp [createUser, hv, lookupA_setA]

/-- Witness for C8: the registered email has an active matching record,
yet the fresh Profile is written non-premium. -/
theorem createUser_fresh_not_premium_witness :
    (lookupA (createUser dbC8 (Except.ok "u9") "User@Example.Com" "pw" "bob" 3).2.users
        "u9").map (fun u => u.isPremium) = some false :=
  createUser_fresh_not_premium dbC8 "u9" "User@Example.Com" "pw" "bob" 3 rfl
